import Mathlib

set_option maxHeartbeats 1000000

/-!
A shallow embedding of the repository's two Python entry points,
`generate_vega_lite_spec` (src/generate_vega_lite_spec_enhanced.py) and
`process_structured_data` (src/process_structured_data.py).

Modelling conventions:
* JSON values are `JVal`; JSON numbers are exact rationals `Q` (Python
  int/float are not distinguished and float rounding is abstracted away —
  no claim depends on either).  `Q` is an unnormalized fraction whose
  denominator is positive at every construction site; its operations
  reduce definitionally, so concrete runs can be checked by `decide`.
* `json.loads data_sample` is represented by an extra argument
  `parsed : Option JVal` (`none` models a `json.JSONDecodeError`); the raw
  string is kept as well because the code inspects `data_sample.strip()`
  before parsing.  Quantifying over `Option JVal` covers every input string.
* Python exceptions that escape a function are modelled by
  `Except String JVal`; exceptions swallowed by a `try/except` become the
  corresponding fallback value, exactly where the source catches them.
* `str(x)` for uniqueness counting is modelled by `pyStr`; Python's repr of
  nested lists/dicts (and int-vs-float rendering) is abstracted to a
  deterministic rendering, which no claim observes.
-/

/-- Exact rational numbers as unnormalized fractions.  Every value built by
the embedding keeps `den` positive (JSON literals have `den = 1` or a power
of ten; the arithmetic below preserves positivity), and every division in
the sources is guarded by a positivity test on the divisor. -/
structure Q where
  num : ℤ
  den : ℕ
deriving DecidableEq

instance (n : ℕ) : OfNat Q n := ⟨⟨(n : ℤ), 1⟩⟩

namespace Q

/-- Value equality (Python `==` between numbers). -/
def beq (a b : Q) : Bool := a.num * (b.den : ℤ) == b.num * (a.den : ℤ)

/-- Python `<` (valid for positive denominators). -/
def lt (a b : Q) : Bool := decide (a.num * (b.den : ℤ) < b.num * (a.den : ℤ))

/-- Python `<=` (valid for positive denominators). -/
def le (a b : Q) : Bool := decide (a.num * (b.den : ℤ) ≤ b.num * (a.den : ℤ))

def add (a b : Q) : Q := ⟨a.num * b.den + b.num * a.den, a.den * b.den⟩

def sub (a b : Q) : Q := ⟨a.num * b.den - b.num * a.den, a.den * b.den⟩

def mul (a b : Q) : Q := ⟨a.num * b.num, a.den * b.den⟩

/-- Python true division `/`; the sign is kept on the numerator so a
positive denominator stays positive.  A zero divisor (Python
`ZeroDivisionError`) is guarded against at every call site. -/
def div (a b : Q) : Q :=
  if 0 ≤ b.num then ⟨a.num * b.den, a.den * b.num.natAbs⟩
  else ⟨-(a.num * b.den), a.den * b.num.natAbs⟩

/-- The reduction step of Python `max` (keeps the earlier value on ties). -/
def fmax (acc x : Q) : Q := if lt acc x then x else acc

/-- The reduction step of Python `min` (keeps the earlier value on ties). -/
def fmin (acc x : Q) : Q := if lt x acc then x else acc

def ofNat (n : ℕ) : Q := ⟨(n : ℤ), 1⟩

/-- The rational value of a fraction, for the correspondence proofs. -/
def toRat (a : Q) : ℚ := (a.num : ℚ) / (a.den : ℚ)

end Q

inductive JVal where
  | jnull : JVal
  | jbool : Bool → JVal
  | jnum : Q → JVal
  | jstr : String → JVal
  | jarr : List JVal → JVal
  | jobj : List (String × JVal) → JVal

namespace JVal

/-- Python `isinstance(v, dict)`. -/
def isObj : JVal → Bool
  | .jobj _ => true
  | _ => false

/-- Negated Python truthiness of a JSON-decoded value. -/
def falsy : JVal → Bool
  | .jnull => true
  | .jbool b => !b
  | .jnum q => Q.beq q 0
  | .jstr s => s == ""
  | .jarr xs => xs.isEmpty
  | .jobj kvs => kvs.isEmpty

/-- `list(d.keys())` of a dict (call sites only use it on `jobj`). -/
def objKeys : JVal → List String
  | .jobj kvs => kvs.map Prod.fst
  | _ => []

end JVal

/-- Python's whitespace for `str.strip()`. -/
def isPySpace (c : Char) : Bool :=
  c.toNat == 32 || c.toNat == 9 || c.toNat == 10 ||
  c.toNat == 13 || c.toNat == 11 || c.toNat == 12

/-- Python `not s.strip()` (also covering `not s`, since an empty string
strips to itself). -/
def stripEmpty (s : String) : Bool :=
  (s.data.dropWhile isPySpace).isEmpty

/-- Python `s.lower()` (ASCII; no claim involves non-ASCII case folding). -/
def pyLower (s : String) : String :=
  String.mk (s.data.map Char.toLower)

/-- Whether `needle` is a prefix of `hay`. -/
def startsL : List Char → List Char → Bool
  | [], _ => true
  | _ :: _, [] => false
  | a :: as, b :: bs => a == b && startsL as bs

/-- Whether `needle` occurs in `hay` (Python `needle in hay` on strings). -/
def occursL (needle : List Char) : List Char → Bool
  | [] => needle.isEmpty
  | c :: rest => startsL needle (c :: rest) || occursL needle rest

/-- Python `needle in hay` on strings (substring containment). -/
def containsSub (hay needle : String) : Bool :=
  occursL needle.data hay.data

/-- Fuel-driven count of non-overlapping occurrences, scanning left to
right and skipping past each match, as Python `str.count` does. -/
def countOccF (needle : List Char) : ℕ → List Char → ℕ
  | 0, _ => 0
  | fuel + 1, hay =>
      match hay with
      | [] => 0
      | c :: rest =>
          if startsL needle (c :: rest) then
            1 + countOccF needle fuel (rest.drop (needle.length - 1))
          else countOccF needle fuel rest

/-- Python `hay.count(needle)` (call sites always pass a non-empty needle). -/
def countSub (hay needle : String) : ℕ :=
  countOccF needle.data hay.data.length hay.data

/-- Fuel-driven non-overlapping replacement, as Python `str.replace`. -/
def replaceF (needle repl : List Char) : ℕ → List Char → List Char
  | 0, hay => hay
  | fuel + 1, hay =>
      match hay with
      | [] => []
      | c :: rest =>
          if startsL needle (c :: rest) && !needle.isEmpty then
            repl ++ replaceF needle repl fuel (rest.drop (needle.length - 1))
          else c :: replaceF needle repl fuel rest

/-- Python `s.replace(pat, repl)` (call sites always pass a non-empty pattern). -/
def pyReplace (s pat repl : String) : String :=
  String.mk (replaceF pat.data repl.data s.data.length s.data)

/-- `any(keyword in hay for keyword in kws)`. -/
def anyKeyword (hay : String) (kws : List String) : Bool :=
  kws.any (fun k => containsSub hay k)

/-- Python `re.match(r'^\d{4}', s)` viewed as a predicate (the optional
groups of `^\d{4}(-\d{2})?(-\d{2})?` never affect whether a match exists,
so the same predicate serves both regexes of the sources). -/
def starts4Digits (s : String) : Bool :=
  match s.data with
  | a :: b :: c :: d :: _ => a.isDigit && b.isDigit && c.isDigit && d.isDigit
  | _ => false

/-- Python `re.match(r'^\d{4}-\d{2}-\d{2}', s)` as a predicate. -/
def isIsoDatePre (s : String) : Bool :=
  match s.data with
  | a :: b :: c :: d :: e :: f :: g :: h :: i :: j :: _ =>
      a.isDigit && b.isDigit && c.isDigit && d.isDigit && (e.toNat == 45) &&
      f.isDigit && g.isDigit && (h.toNat == 45) && i.isDigit && j.isDigit
  | _ => false

/-- Python `s.title()`: upper-case a cased character that follows a
non-alphabetic one, lower-case the rest. -/
def pyTitle (s : String) : String :=
  String.mk (s.data.foldl
    (fun (acc : List Char × Bool) c =>
      if c.isAlpha then
        (acc.1 ++ [if acc.2 then c.toLower else c.toUpper], true)
      else (acc.1 ++ [c], false))
    ([], false)).1

/-- `field.replace("_", " ").title()`, the label humanization of both files. -/
def humanize (field : String) : String :=
  pyTitle (pyReplace field "_" " ")

/-- Python dict insertion: replace the value in place when the key exists,
append otherwise. -/
def upsert (pairs : List (String × JVal)) (k : String) (v : JVal) :
    List (String × JVal) :=
  if pairs.any (fun p => p.1 == k) then
    pairs.map (fun p => if p.1 == k then (k, v) else p)
  else pairs ++ [(k, v)]

/-- Python dict-literal / `dict(...)` construction from a pair list
(later duplicate keys overwrite earlier ones, keeping the first position). -/
def pyDict (pairs : List (String × JVal)) : List (String × JVal) :=
  pairs.foldl (fun acc p => upsert acc p.1 p.2) []

/-- Python `{**base, **extra}` spread-merge used to assemble output dicts. -/
def pyMerge (base extra : List (String × JVal)) : List (String × JVal) :=
  extra.foldl (fun acc p => upsert acc p.1 p.2) base

/-- Truthiness of an optional string (`None` and `""` are falsy). -/
def pyTruthyS : Option String → Bool
  | some s => s != ""
  | none => false

/-- Python `a or b` for optional strings. -/
def pyOrS (a b : Option String) : Option String :=
  match a with
  | some s => if s == "" then b else some s
  | none => b

/-- Python `a or d` where the final operand is a plain string. -/
def pyOrD (a : Option String) (d : String) : String :=
  match a with
  | some s => if s == "" then d else s
  | none => d

/-- Python `isinstance(v, (int, float)) and not isinstance(v, bool)`. -/
def isNumStrict : JVal → Bool
  | .jnum _ => true
  | _ => false

/-- Python `isinstance(v, (int, float))` — `bool` is a subclass of `int`,
so booleans count, with `True = 1` and `False = 0` in arithmetic. -/
def numLoose : JVal → Option Q
  | .jnum q => some q
  | .jbool b => some (if b then 1 else 0)
  | _ => none

/-- Python `str(x)` (see the module comment for the container abstraction). -/
def pyStr : JVal → String
  | .jnull => "None"
  | .jbool true => "True"
  | .jbool false => "False"
  | .jnum q =>
      if q.den = 1 then toString q.num
      else toString q.num ++ "/" ++ toString q.den
  | .jstr s => s
  | .jarr xs => "[#" ++ toString xs.length ++ "]"
  | .jobj kvs => "(#" ++ toString kvs.length ++ ")"

/-- Sequential effectful map over a list, stopping at the first error —
the evaluation order of a Python loop or comprehension. -/
def mapME : List α → (α → Except String β) → Except String (List β)
  | [], _ => .ok []
  | a :: as, f => do
      let b ← f a
      let bs ← mapME as f
      .ok (b :: bs)

/-- Sequential effectful left fold, the evaluation order of a Python loop
that updates an accumulator and may raise. -/
def foldME : List α → β → (β → α → Except String β) → Except String β
  | [], b, _ => .ok b
  | a :: as, b, f => do
      let b2 ← f b a
      foldME as b2 f

def exceptOk : Except String JVal → Bool
  | .ok _ => true
  | .error _ => false

/-- All records are Python dicts. -/
def rowsAllObj (rows : List JVal) : Bool :=
  rows.all (fun r => r.isObj)

/-- The top-level keys of an `.ok` object result. -/
def okObjKeys : Except String JVal → Option (List (String × JVal))
  | .ok (.jobj kvs) => some kvs
  | _ => none

/-- The value of a top-level key of an `.ok` object result. -/
def topField (r : Except String JVal) (k : String) : Option JVal :=
  (okObjKeys r).bind (fun kvs => kvs.lookup k)

namespace GVS
/-! The embedding of src/generate_vega_lite_spec_enhanced.py. -/

def time_keywords : List String :=
  ["year", "date", "time", "month", "day", "quarter", "week"]

def category_keywords : List String :=
  ["name", "region", "category", "type", "brand", "segment",
   "product", "customer", "location", "country", "state", "city"]

def value_keywords : List String :=
  ["sales", "revenue", "volume", "amount", "value", "price",
   "qty", "quantity", "usd", "count", "total", "sum", "avg", "mean"]

/-- `data_values[0][field]` inside a bare `try/except`: `none` models both a
missing key and the TypeError of subscripting a non-dict first record. -/
def firstSample (data_values : List JVal) (field : String) : Option JVal :=
  match data_values with
  | .jobj kvs :: _ => kvs.lookup field
  | _ => none

/-- The mutable state of the classification loop in `detect_field_types`. -/
structure DetectSt where
  time_field : Option String
  category_field : Option String
  value_fields : List String

/-- One iteration of the `for field in fields` loop of `detect_field_types`
(lines 97-138 of the source). -/
def detectStep (data_values : List JVal) (st : DetectSt) (field : String) :
    DetectSt :=
  let field_lower := pyLower field
  let sample := firstSample data_values field
  let is_numeric := match sample with | some v => isNumStrict v | none => false
  let is_string := match sample with | some (.jstr _) => true | _ => false
  let valueCat : DetectSt :=
    let afterValue : DetectSt :=
      if is_string then
        let has_category_keyword := anyKeyword field_lower category_keywords
        if has_category_keyword && st.category_field.isNone then
          { st with category_field := some field }
        else if st.category_field.isNone then
          { st with category_field := some field }
        else st
      else st
    if is_numeric then
      let has_value_keyword := anyKeyword field_lower value_keywords
      let has_time_keyword := anyKeyword field_lower time_keywords
      let has_id_keyword := containsSub field_lower "id"
      if has_value_keyword || (!has_time_keyword && !has_id_keyword) then
        { st with value_fields := st.value_fields ++ [field] }
      else afterValue
    else afterValue
  if anyKeyword field_lower time_keywords then
    if is_numeric || is_string then { st with time_field := some field }
    else valueCat
  else if is_string &&
      (match sample with | some (.jstr s) => s != "" && starts4Digits s | _ => false) then
    if st.time_field.isNone then { st with time_field := some field }
    else valueCat
  else valueCat

/-- Python `not isinstance(data_values[0][field], (int, float))` inside a bare
`try/except` (a raised lookup skips the field). -/
def fallbackNonNumeric (data_values : List JVal) (field : String) : Bool :=
  match firstSample data_values field with
  | some v => (numLoose v).isNone
  | none => false

/-- Python `isinstance(data_values[0][field], (int, float))` inside a bare
`try/except` — note there is no bool exclusion in this fallback scan. -/
def fallbackNumeric (data_values : List JVal) (field : String) : Bool :=
  match firstSample data_values field with
  | some v => (numLoose v).isSome
  | none => false

/-- `detect_field_types(fields, data_values)` of the source: the keyword pass
followed by the two fallbacks.  `fields` is non-empty at every call site
(the normalizer guarantees at least two fields); the `headD`/`getLastD ""`
defaults model `fields[0]`/`fields[-1]` there and are never exercised. -/
def detect_field_types (fields : List String) (data_values : List JVal) :
    Option String × Option String × List String :=
  let st := fields.foldl (detectStep data_values) ⟨none, none, []⟩
  let value_fields :=
    if st.value_fields = [] then
      match fields.reverse.find? (fallbackNumeric data_values) with
      | some f => [f]
      | none => [fields.getLastD ""]
    else st.value_fields
  let category_field :=
    if !pyTruthyS st.category_field && !pyTruthyS st.time_field then
      let cf := match fields.find? (fallbackNonNumeric data_values) with
        | some f => some f
        | none => st.category_field
      if !pyTruthyS cf then some (fields.headD "") else cf
    else st.category_field
  (st.time_field, category_field, value_fields)

/-- One measure's `{'min': ..., 'max': ..., 'range': ...}` entry. -/
structure RangeInfo where
  minV : Q
  maxV : Q
  rangeV : Q
deriving DecidableEq

/-- The comprehension
`[row[field] for row in data_values if field in row and isinstance(row[field], (int, float))]`
inside the per-field `try/except: pass` of lines 177-185.  `field in row`
is a key test on a dict, a membership test on a list, a substring test on
a string, and raises `TypeError` on a number, boolean or `None`; when it
holds on a list or string, `row[field]` then raises `TypeError` (non-integer
index).  Any raise abandons the whole field (`none`); other list/string
rows are merely skipped.  `isinstance(row[field], (int, float))` has no
bool exclusion here, so booleans count as 1/0. -/
def collectValues (data_values : List JVal) (field : String) :
    Option (List Q) :=
  data_values.foldr (fun row acc =>
    match acc with
    | none => none
    | some vs =>
        match row with
        | .jobj kvs =>
            match (kvs.lookup field).bind numLoose with
            | some q => some (q :: vs)
            | none => some vs
        | .jarr xs =>
            if xs.any (fun v => match v with | .jstr s => s == field | _ => false)
            then none else some vs
        | .jstr s => if containsSub s field then none else some vs
        | _ => none) (some [])

/-- The `ranges` dict of `have_different_scales` (a measure with no numeric
values, or whose comprehension raised, is skipped). -/
def computeRanges (value_fields : List String) (data_values : List JVal) :
    List (String × RangeInfo) :=
  value_fields.foldl (fun acc field =>
    match collectValues data_values field with
    | some (v :: vs) =>
        let mn := vs.foldl Q.fmin v
        let mx := vs.foldl Q.fmax v
        let rng := if Q.beq mx mn then mx else Q.sub mx mn
        if acc.any (fun p => p.1 == field) then
          acc.map (fun p => if p.1 == field then (field, RangeInfo.mk mn mx rng) else p)
        else acc ++ [(field, RangeInfo.mk mn mx rng)]
    | _ => acc) []

/-- All unordered pairs `(field_list[i], field_list[j])` with `i < j`, in the
iteration order of the nested loop. -/
def allPairs : List α → List (α × α)
  | [] => []
  | x :: xs => xs.map (fun y => (x, y)) ++ allPairs xs

/-- One update of `max_ratio` (lines 197-199 of the source). -/
def pairStep (acc : Q) (p : RangeInfo × RangeInfo) : Q :=
  if Q.lt 0 p.2.rangeV then
    let r := Q.div p.1.rangeV p.2.rangeV
    Q.fmax (Q.fmax acc r) (if Q.lt 0 r then Q.div 1 r else 1)
  else acc

/-- `have_different_scales(value_fields, data_values)` of the source. -/
def have_different_scales (value_fields : List String)
    (data_values : List JVal) : Bool × List (String × RangeInfo) :=
  if value_fields.length < 2 then (false, [])
  else
    let ranges := computeRanges value_fields data_values
    if ranges.length < 2 then (false, [])
    else
      let max_ratio := (allPairs (ranges.map Prod.snd)).foldl pairStep 1
      (Q.lt 100 max_ratio, ranges)

/-- The fixed three-row default dataset (lines 59-63 of the source). -/
def fallback3 : List JVal :=
  [.jobj [("category", .jstr "A"), ("value", .jnum 28)],
   .jobj [("category", .jstr "B"), ("value", .jnum 55)],
   .jobj [("category", .jstr "C"), ("value", .jnum 43)]]

/-- The single-record replacement of line 73 of the source. -/
def fallback1 : List JVal :=
  [.jobj [("category", .jstr "A"), ("value", .jnum 28)]]

/-- Lines 47-78 of the source: parse with fallback, dead re-check, and the
first-record structure validation producing `(data_values, fields)`. -/
def normalizeData (data_sample : String) (parsed : Option JVal) :
    List JVal × List String :=
  let dv0 : List JVal :=
    if stripEmpty data_sample then []
    else match parsed with
      | some (.jarr xs) => if 0 < xs.length then xs else []
      | _ => []
  let dv1 := if dv0.isEmpty then fallback3 else dv0
  let dv2 := if dv1.isEmpty then fallback1 else dv1
  match dv2 with
  | first :: _ =>
      if first.falsy || !first.isObj || first.objKeys.length < 2 then
        (fallback1, ["category", "value"])
      else (dv2, first.objKeys)
  | [] => (fallback1, ["category", "value"])

/-- `row[k]` outside any `try` (the grouped-bars reshape, lines 352-359):
a missing key raises `KeyError`, a non-dict row raises `TypeError`. -/
def rowItem (row : JVal) (k : String) : Except String JVal :=
  match row with
  | .jobj kvs =>
      match kvs.lookup k with
      | some v => .ok v
      | none => .error ("KeyError: " ++ k)
  | _ => .error "TypeError: row is not subscriptable"

/-- `generate_vega_lite_spec(chart_description, data_sample)`.  The result is
the Python return value parsed back from `json.dumps` (an `.ok` object), or
`.error` when the Python function raises. -/
def generate_vega_lite_spec (chart_description data_sample : String)
    (parsed : Option JVal) : Except String JVal :=
  if stripEmpty chart_description then
    .ok (.jobj [("error", .jstr "chart_description cannot be empty"),
                ("status", .jstr "failed")])
  else
    let norm := normalizeData data_sample parsed
    let data_values := norm.1
    let fields := norm.2
    let det := detect_field_types fields data_values
    let time_field := det.1
    let category_field := det.2.1
    let value_fields := det.2.2
    let primary_value_field :=
      if value_fields.isEmpty then fields.getLastD "" else value_fields.headD ""
    let description_lower := pyLower chart_description
    let different_scales := (have_different_scales value_fields data_values).1
    let base_spec : List (String × JVal) :=
      [("$schema", .jstr "https://vega.github.io/schema/vega-lite/v5.json"),
       ("description", .jstr chart_description),
       ("data", .jobj [("values", .jarr data_values)]),
       ("width", .jnum 500),
       ("height", .jnum 300)]
    if anyKeyword description_lower ["line", "trend", "time series"] then
      -- LINE CHART
      let x0 := pyOrD (pyOrS time_field category_field) (fields.headD "")
      let y_field := primary_value_field
      let multiSeries := pyTruthyS time_field && pyTruthyS category_field
      let x_field := if multiSeries then time_field.getD "" else x0
      let color_field : Option String :=
        if multiSeries then category_field else none
      let x_type :=
        if time_field == some x_field then
          match firstSample data_values x_field with
          | some (.jnum _) => "ordinal"
          | some (.jbool _) => "ordinal"
          | some (.jstr s) => if isIsoDatePre s then "temporal" else "ordinal"
          | _ => "ordinal"
        else "ordinal"
      let encoding0 : List (String × JVal) :=
        [("x", .jobj [("field", .jstr x_field), ("type", .jstr x_type),
                      ("title", .jstr (humanize x_field))]),
         ("y", .jobj [("field", .jstr y_field), ("type", .jstr "quantitative"),
                      ("title", .jstr (humanize y_field))])]
      let encoding :=
        if pyTruthyS color_field then
          let cf := color_field.getD ""
          encoding0 ++ [("color", .jobj [("field", .jstr cf),
                                         ("type", .jstr "nominal"),
                                         ("title", .jstr (humanize cf))])]
        else encoding0
      .ok (.jobj (pyMerge base_spec
        [("mark", .jobj [("type", .jstr "line"), ("point", .jbool true),
                         ("tooltip", .jbool true)]),
         ("encoding", .jobj encoding),
         ("config", .jobj [("view", .jobj [("stroke", .jnull)])])]))
    else if anyKeyword description_lower ["bar", "column", "histogram"] then
      -- BAR CHART
      let x_field := pyOrD (pyOrS category_field time_field) (fields.headD "")
      let xTypeStr :=
        if category_field == some x_field then "nominal" else "ordinal"
      let is_year_comparison := pyTruthyS time_field &&
        (containsSub description_lower "compare" ||
         containsSub description_lower "vs" ||
         containsSub description_lower "versus" ||
         countSub description_lower "year" ≥ 2)
      if is_year_comparison then
        let primary_metric :=
          if value_fields.isEmpty then fields.getLastD "" else value_fields.headD ""
        let tf := time_field.getD ""
        .ok (.jobj (pyMerge base_spec
          [("mark", .jobj [("type", .jstr "bar"), ("tooltip", .jbool true)]),
           ("encoding", .jobj
             [("x", .jobj [("field", .jstr x_field), ("type", .jstr xTypeStr),
                           ("axis", .jobj [("labelAngle", .jnum ⟨-45, 1⟩)])]),
              ("y", .jobj [("field", .jstr primary_metric),
                           ("type", .jstr "quantitative"),
                           ("title", .jstr (humanize primary_metric))]),
              ("color", .jobj [("field", .jstr tf), ("type", .jstr "ordinal"),
                               ("title", .jstr (humanize tf))]),
              ("xOffset", .jobj [("field", .jstr tf)])]),
           ("config", .jobj [("view", .jobj [("stroke", .jnull)])])]))
      else
        let wants_multi_metric := decide (1 < value_fields.length) &&
          anyKeyword description_lower
            ["grouped", "two bars", "both", "multiple", "including", "compare"]
        if wants_multi_metric then
          if different_scales && value_fields.length == 2 then
            -- DUAL-AXIS CHART
            let vf0 := value_fields.getD 0 ""
            let vf1 := value_fields.getD 1 ""
            .ok (.jobj
              [("$schema", .jstr "https://vega.github.io/schema/vega-lite/v5.json"),
               ("description", .jstr chart_description),
               ("data", .jobj [("values", .jarr data_values)]),
               ("width", .jnum 500),
               ("height", .jnum 300),
               ("layer", .jarr
                 [.jobj [("mark", .jobj [("type", .jstr "bar"),
                                         ("opacity", .jnum ⟨7, 10⟩),
                                         ("color", .jstr "#4c78a8"),
                                         ("tooltip", .jbool true)]),
                         ("encoding", .jobj
                           [("x", .jobj [("field", .jstr x_field),
                                         ("type", .jstr xTypeStr),
                                         ("axis", .jobj [("labelAngle", .jnum ⟨-45, 1⟩)]),
                                         ("title", .jstr (humanize x_field))]),
                            ("y", .jobj [("field", .jstr vf0),
                                         ("type", .jstr "quantitative"),
                                         ("title", .jstr (humanize vf0)),
                                         ("axis", .jobj [("titleColor", .jstr "#4c78a8")])])])],
                  .jobj [("mark", .jobj [("type", .jstr "line"),
                                         ("color", .jstr "#e45756"),
                                         ("point", .jobj [("filled", .jbool true),
                                                          ("size", .jnum 80)]),
                                         ("strokeWidth", .jnum 3),
                                         ("tooltip", .jbool true)]),
                         ("encoding", .jobj
                           [("x", .jobj [("field", .jstr x_field),
                                         ("type", .jstr xTypeStr)]),
                            ("y", .jobj [("field", .jstr vf1),
                                         ("type", .jstr "quantitative"),
                                         ("title", .jstr (humanize vf1)),
                                         ("axis", .jobj [("titleColor", .jstr "#e45756"),
                                                         ("orient", .jstr "right")])])])]]),
               ("resolve", .jobj [("scale", .jobj [("y", .jstr "independent")])]),
               ("config", .jobj [("view", .jobj [("stroke", .jnull)])])])
          else if different_scales || decide (2 < value_fields.length) then
            -- VERTICAL SUBPLOTS
            let charts := value_fields.map (fun value_field =>
              JVal.jobj
                [("title", .jobj [("text", .jstr (humanize value_field)),
                                  ("fontSize", .jnum 14)]),
                 ("width", .jnum 500),
                 ("height", .jnum 200),
                 ("mark", .jobj [("type", .jstr "bar"), ("tooltip", .jbool true)]),
                 ("encoding", .jobj
                   [("x", .jobj [("field", .jstr x_field), ("type", .jstr xTypeStr),
                                 ("axis", .jobj [("labelAngle", .jnum ⟨-45, 1⟩)]),
                                 ("title", .jstr (humanize x_field))]),
                    ("y", .jobj [("field", .jstr value_field),
                                 ("type", .jstr "quantitative"),
                                 ("title", .jnull)]),
                    ("color", .jobj [("value", .jstr "#4c78a8")])])])
            .ok (.jobj
              [("$schema", .jstr "https://vega.github.io/schema/vega-lite/v5.json"),
               ("description", .jstr chart_description),
               ("data", .jobj [("values", .jarr data_values)]),
               ("vconcat", .jarr charts),
               ("resolve", .jobj [("scale", .jobj [("y", .jstr "independent")])]),
               ("config", .jobj [("view", .jobj [("stroke", .jnull)])])])
          else
            -- STANDARD GROUPED BARS: the row lookups are outside any try
            do
              let rowsTrans ← mapME data_values (fun row =>
                mapME value_fields (fun value_field => do
                  let xv ← rowItem row x_field
                  let vv ← rowItem row value_field
                  .ok (JVal.jobj (pyDict
                    [(x_field, xv),
                     ("metric", .jstr (humanize value_field)),
                     ("value", vv)]))))
              let transformed_data := rowsTrans.flatten
              .ok (.jobj (pyMerge base_spec
                [("data", .jobj [("values", .jarr transformed_data)]),
                 ("mark", .jobj [("type", .jstr "bar"), ("tooltip", .jbool true)]),
                 ("encoding", .jobj
                   [("x", .jobj [("field", .jstr x_field), ("type", .jstr xTypeStr),
                                 ("axis", .jobj [("labelAngle", .jnum ⟨-45, 1⟩)])]),
                    ("y", .jobj [("field", .jstr "value"),
                                 ("type", .jstr "quantitative"),
                                 ("title", .jstr "Value")]),
                    ("color", .jobj [("field", .jstr "metric"),
                                     ("type", .jstr "nominal"),
                                     ("title", .jstr "Metric")]),
                    ("xOffset", .jobj [("field", .jstr "metric")])]),
                 ("config", .jobj [("view", .jobj [("stroke", .jnull)])])]))
        else
          -- SINGLE METRIC BAR CHART
          let y_field := primary_value_field
          .ok (.jobj (pyMerge base_spec
            [("mark", .jobj [("type", .jstr "bar"), ("tooltip", .jbool true)]),
             ("encoding", .jobj
               [("x", .jobj [("field", .jstr x_field), ("type", .jstr xTypeStr),
                             ("axis", .jobj [("labelAngle", .jnum ⟨-45, 1⟩)])]),
                ("y", .jobj [("field", .jstr y_field),
                             ("type", .jstr "quantitative")])]),
             ("config", .jobj [("view", .jobj [("stroke", .jnull)])])]))
    else if anyKeyword description_lower ["scatter", "point"] then
      -- SCATTER PLOT
      let x_field := if 2 ≤ fields.length then fields.headD "" else "x"
      let y_field := if 2 ≤ fields.length then fields.getD 1 "" else "y"
      .ok (.jobj (pyMerge base_spec
        [("mark", .jobj [("type", .jstr "point"), ("tooltip", .jbool true)]),
         ("encoding", .jobj
           [("x", .jobj [("field", .jstr x_field), ("type", .jstr "quantitative")]),
            ("y", .jobj [("field", .jstr y_field), ("type", .jstr "quantitative")])]),
         ("config", .jobj [("view", .jobj [("stroke", .jnull)])])]))
    else if anyKeyword description_lower ["pie", "donut"] then
      -- PIE CHART (no config key in this branch of the source)
      let category := pyOrD category_field (fields.headD "")
      let value := primary_value_field
      .ok (.jobj (pyMerge base_spec
        [("mark", .jobj [("type", .jstr "arc"), ("tooltip", .jbool true)]),
         ("encoding", .jobj
           [("theta", .jobj [("field", .jstr value), ("type", .jstr "quantitative")]),
            ("color", .jobj [("field", .jstr category), ("type", .jstr "nominal")])])]))
    else
      -- DEFAULT: BAR CHART
      let x_field := pyOrD category_field (fields.headD "")
      let y_field := primary_value_field
      .ok (.jobj (pyMerge base_spec
        [("mark", .jobj [("type", .jstr "bar"), ("tooltip", .jbool true)]),
         ("encoding", .jobj
           [("x", .jobj [("field", .jstr x_field), ("type", .jstr "nominal"),
                         ("axis", .jobj [("labelAngle", .jnum ⟨-45, 1⟩)])]),
            ("y", .jobj [("field", .jstr y_field),
                         ("type", .jstr "quantitative")])]),
         ("config", .jobj [("view", .jobj [("stroke", .jnull)])])]))

end GVS

namespace PSD
/-! The embedding of src/process_structured_data.py. -/

/-- Python iteration over a JSON-decoded value, as used by `zip` in the SQL
branch of `parse_input_data`: lists yield their elements, strings their
characters, dicts their keys; numbers, booleans and null raise `TypeError`
(which the enclosing `except` turns into the empty parse). -/
def pyIter : JVal → Option (List JVal)
  | .jarr xs => some xs
  | .jstr s => some (s.data.map (fun c => .jstr (String.mk [c])))
  | .jobj kvs => some (kvs.map (fun p => .jstr p.1))
  | _ => none

/-- The `columns` operand of `dict(zip(columns, row))` as a key list.
Unhashable entries (lists, dicts) raise `TypeError`, which
`parse_input_data`'s `except` catches, so mapping them to the empty parse
is faithful.  Hashable non-string entries (numbers, booleans, null) build
Python dicts with non-string keys, which `JVal` objects cannot carry: the
model maps them to the empty parse as well, which is NOT faithful (Python
keeps the records and, once such a key reaches the first record's field
list, raises `AttributeError` at `field.lower()` in
`analyze_data_structure`).  Every theorem about `process_structured_data`
therefore assumes `sqlColsOk`, which rules those inputs out. -/
def colKeys : JVal → Option (List String)
  | cols => (pyIter cols).bind (fun vs => vs.mapM (fun v =>
      match v with
      | .jstr s => some s
      | _ => none))

/-- `[dict(zip(columns, row)) for row in rows]`; any `TypeError` inside the
comprehension is caught by `parse_input_data`'s `except`, yielding `[]`. -/
def sqlZip (cols rows : JVal) : List JVal :=
  match colKeys cols, pyIter rows with
  | some ks, some rs =>
      match rs.mapM pyIter with
      | some rvs => rvs.map (fun rv => .jobj (pyDict (List.zip ks rv)))
      | none => []
  | _, _ => []

/-- `parse_input_data(data_sample)` (lines 32-57 of the source). -/
def parse_input_data (data_sample : String) (parsed : Option JVal) :
    List JVal :=
  if stripEmpty data_sample then []
  else match parsed with
    | none => []
    | some p =>
        match p with
        | .jobj kvs =>
            if (kvs.lookup "columns").isSome && (kvs.lookup "rows").isSome then
              sqlZip ((kvs.lookup "columns").getD .jnull)
                     ((kvs.lookup "rows").getD .jnull)
            else [p]
        | .jarr xs => xs
        | _ => []

/-- The analysis record of `analyze_data_structure`.  `has_numeric` is
optional because the empty-data branch of the source omits that key. -/
structure Analysis where
  row_count : ℕ
  fields : List String
  numeric_fields : List String
  text_fields : List String
  date_fields : List String
  category_fields : List String
  has_time_series : Bool
  has_categories : Bool
  has_numeric : Option Bool
  recommended_viz : Option String

/-- The analysis dict as it is embedded into the output JSON. -/
def Analysis.toJVal (a : Analysis) : JVal :=
  .jobj
    ([("row_count", .jnum (Q.ofNat a.row_count)),
      ("fields", .jarr (a.fields.map JVal.jstr)),
      ("numeric_fields", .jarr (a.numeric_fields.map JVal.jstr)),
      ("text_fields", .jarr (a.text_fields.map JVal.jstr)),
      ("date_fields", .jarr (a.date_fields.map JVal.jstr)),
      ("category_fields", .jarr (a.category_fields.map JVal.jstr)),
      ("has_time_series", .jbool a.has_time_series),
      ("has_categories", .jbool a.has_categories)] ++
     (match a.has_numeric with
      | some b => [("has_numeric", JVal.jbool b)]
      | none => []) ++
     [("recommended_viz",
       match a.recommended_viz with
       | some s => .jstr s
       | none => .jnull)])

def date_kws : List String := ["year", "date", "time", "month", "day", "quarter"]

def cat_kws : List String := ["name", "region", "category", "type", "brand", "segment", "id"]

/-- `data[0][field]` inside the bare `try` of the analysis loop. -/
def firstLookup (data : List JVal) (field : String) : Option JVal :=
  match data with
  | .jobj kvs :: _ => kvs.lookup field
  | _ => none

/-- `len(set(str(row.get(field, '')) for row in data))`; a non-dict row makes
`row.get` raise `AttributeError`, aborting the whole count (`none`). -/
def uniqueCount (data : List JVal) (field : String) : Option ℕ :=
  if data.any (fun r => !r.isObj) then none
  else some ((data.map (fun r =>
    match r with
    | .jobj kvs => pyStr ((kvs.lookup field).getD (.jstr ""))
    | _ => "")).eraseDups.length)

/-- The mutable field lists of the analysis loop. -/
structure ASt where
  numeric_fields : List String
  text_fields : List String
  date_fields : List String
  category_fields : List String

/-- One iteration of the `for field in fields` loop of
`analyze_data_structure` (lines 82-109 of the source). -/
def analyzeStep (data : List JVal) (st : ASt) (field : String) : ASt :=
  let field_lower := pyLower field
  let st1 :=
    if anyKeyword field_lower date_kws then
      { st with date_fields := st.date_fields ++ [field] }
    else if anyKeyword field_lower cat_kws then
      { st with category_fields := st.category_fields ++ [field] }
    else st
  match firstLookup data field with
  | some (.jnum _) => { st1 with numeric_fields := st1.numeric_fields ++ [field] }
  | some (.jstr s) =>
      if starts4Digits s then
        if st1.date_fields.contains field then st1
        else { st1 with date_fields := st1.date_fields ++ [field] }
      else
        let st2 := { st1 with text_fields := st1.text_fields ++ [field] }
        match uniqueCount data field with
        | some u =>
            if Q.le (Q.ofNat u) (Q.fmax 10 (Q.mul (Q.ofNat data.length) ⟨1, 2⟩)) then
              if st2.category_fields.contains field then st2
              else { st2 with category_fields := st2.category_fields ++ [field] }
            else st2
        | none => st2
  | _ => st1

/-- `analyze_data_structure(data)`; `.error` models the uncaught
`AttributeError` of `first_item.keys()` on a non-dict first record. -/
def analyze_data_structure (data : List JVal) : Except String Analysis :=
  match data with
  | [] => .ok ⟨0, [], [], [], [], [], false, false, none, none⟩
  | first :: _ =>
      match first with
      | .jobj kvs =>
          let fields := kvs.map Prod.fst
          let st := fields.foldl (analyzeStep data) ⟨[], [], [], []⟩
          let has_time_series := !st.date_fields.isEmpty
          let has_categories := !st.category_fields.isEmpty
          let has_numeric := !st.numeric_fields.isEmpty
          let recommended_viz : Option String :=
            if has_time_series && has_numeric then some "line"
            else if has_categories && has_numeric && decide (data.length ≤ 20) then
              some "bar"
            else if has_numeric && decide (2 ≤ st.numeric_fields.length) then
              some "scatter"
            else if has_categories && has_numeric then some "bar"
            else none
          .ok ⟨data.length, fields, st.numeric_fields, st.text_fields,
               st.date_fields, st.category_fields, has_time_series,
               has_categories, some has_numeric, recommended_viz⟩
      | _ => .error "AttributeError: keys"

/-- One row's contribution to
`[row[field] for row in data if field in row and isinstance(row[field], (int, float))]`
(line 151, outside any `try`): a dict row contributes its value when present
and numeric (`bool` is a subclass of `int`, so booleans count); `field in
row` on a list row is a membership test and on a string row a substring
test, and when it holds `row[field]` raises `TypeError` (non-integer index),
otherwise such rows are skipped; on a number, boolean or `None` row
`field in row` itself raises `TypeError`. -/
def statNumRow (field : String) : JVal → Except String (Option Q)
  | .jobj kvs => .ok ((kvs.lookup field).bind numLoose)
  | .jarr xs =>
      if xs.any (fun v => match v with | .jstr s => s == field | _ => false)
      then .error "TypeError: list indices must be integers"
      else .ok none
  | .jstr s =>
      if containsSub s field
      then .error "TypeError: string indices must be integers"
      else .ok none
  | _ => .error "TypeError: argument is not iterable"

def statNumericValues (data : List JVal) (field : String) :
    Except String (List Q) := do
  let opts ← mapME data (statNumRow field)
  .ok (opts.filterMap id)

/-- One row's contribution to `[str(row[field]) for row in data if field in row]`
(line 163, outside any `try`), with the same `field in row` semantics as
`statNumRow`. -/
def statStrRow (field : String) : JVal → Except String (Option String)
  | .jobj kvs => .ok ((kvs.lookup field).map pyStr)
  | .jarr xs =>
      if xs.any (fun v => match v with | .jstr s => s == field | _ => false)
      then .error "TypeError: list indices must be integers"
      else .ok none
  | .jstr s =>
      if containsSub s field
      then .error "TypeError: string indices must be integers"
      else .ok none
  | _ => .error "TypeError: argument is not iterable"

def statStrValues (data : List JVal) (field : String) :
    Except String (List String) := do
  let opts ← mapME data (statStrRow field)
  .ok (opts.filterMap id)

/-- `generate_summary_stats(data, analysis)` (lines 139-172 of the source).
The arbitrary iteration order of Python's `set` in `list(set(values))` is
abstracted to first-occurrence order. -/
def generate_summary_stats (data : List JVal) (analysis : Analysis) :
    Except String JVal := do
  let fsNumeric ← foldME analysis.numeric_fields [] (fun acc field => do
    let values ← statNumericValues data field
    match values with
    | [] => .ok acc
    | v :: vs =>
        let mn := vs.foldl Q.fmin v
        let mx := vs.foldl Q.fmax v
        let avg := Q.div (values.foldl Q.add 0) (Q.ofNat values.length)
        .ok (upsert acc field (.jobj
          [("type", .jstr "numeric"), ("min", .jnum mn), ("max", .jnum mx),
           ("avg", .jnum avg), ("count", .jnum (Q.ofNat values.length))])))
  let field_stats ← foldME analysis.category_fields fsNumeric (fun acc field => do
    let values ← statStrValues data field
    let unique_values := values.eraseDups
    .ok (upsert acc field (.jobj
      [("type", .jstr "categorical"),
       ("unique_count", .jnum (Q.ofNat unique_values.length)),
       ("values", .jarr ((unique_values.take 10).map JVal.jstr)),
       ("count", .jnum (Q.ofNat values.length))])))
  .ok (.jobj
    [("row_count", .jnum (Q.ofNat analysis.row_count)),
     ("column_count", .jnum (Q.ofNat analysis.fields.length)),
     ("numeric_columns", .jnum (Q.ofNat analysis.numeric_fields.length)),
     ("text_columns", .jnum (Q.ofNat analysis.text_fields.length)),
     ("field_stats", .jobj field_stats)])

/-- The nested `generate_vega_lite_spec(data, analysis, chart_type)` of
process_structured_data.py (lines 174-269).  The only uncaught exception is
`y_field.replace(...)` with `y_field = None` in the line branch. -/
def generate_vega_lite_spec (data : List JVal) (analysis : Analysis)
    (chart_type : String) : Except String JVal :=
  if data.isEmpty || analysis.fields.isEmpty then
    .ok (.jobj [("error", .jstr "No data to visualize")])
  else
    let fields := analysis.fields
    let base_spec : List (String × JVal) :=
      [("$schema", .jstr "https://vega.github.io/schema/vega-lite/v5.json"),
       ("data", .jobj [("values", .jarr data)]),
       ("width", .jnum 500),
       ("height", .jnum 300)]
    let x_field0 : Option String :=
      if !analysis.date_fields.isEmpty then some (analysis.date_fields.headD "")
      else if !analysis.category_fields.isEmpty then
        some (analysis.category_fields.headD "")
      else if !fields.isEmpty then some (fields.headD "")
      else none
    let y_field : Option String :=
      if !analysis.numeric_fields.isEmpty then
        some (analysis.numeric_fields.headD "")
      else if 1 < fields.length then some (fields.getD 1 "")
      else none
    let multi := !analysis.date_fields.isEmpty && !analysis.category_fields.isEmpty
    let x_field : Option String :=
      if multi then some (analysis.date_fields.headD "") else x_field0
    let color_field : Option String :=
      if multi then some (analysis.category_fields.headD "") else none
    if chart_type = "line" then
      let x_type := if !analysis.date_fields.isEmpty then "temporal" else "ordinal"
      let xf := x_field.getD ""
      match y_field with
      | none => .error "AttributeError: NoneType has no attribute replace"
      | some yf =>
          let encoding0 : List (String × JVal) :=
            [("x", .jobj [("field", .jstr xf), ("type", .jstr x_type),
                          ("title", .jstr (humanize xf))]),
             ("y", .jobj [("field", .jstr yf), ("type", .jstr "quantitative"),
                          ("title", .jstr (humanize yf))])]
          let encoding :=
            if pyTruthyS color_field then
              let cf := color_field.getD ""
              encoding0 ++ [("color", .jobj [("field", .jstr cf),
                                             ("type", .jstr "nominal"),
                                             ("title", .jstr (humanize cf))])]
            else encoding0
          .ok (.jobj (pyMerge base_spec
            [("mark", .jobj [("type", .jstr "line"), ("point", .jbool true),
                             ("tooltip", .jbool true)]),
             ("encoding", .jobj encoding)]))
    else if chart_type = "bar" then
      let optJ : Option String → JVal := fun o =>
        match o with | some s => .jstr s | none => .jnull
      .ok (.jobj (pyMerge base_spec
        [("mark", .jobj [("type", .jstr "bar"), ("tooltip", .jbool true)]),
         ("encoding", .jobj
           [("x", .jobj [("field", optJ x_field), ("type", .jstr "nominal"),
                         ("axis", .jobj [("labelAngle", .jnum ⟨-45, 1⟩)])]),
            ("y", .jobj [("field", optJ y_field),
                         ("type", .jstr "quantitative")])])]))
    else if chart_type = "scatter" then
      let x_num :=
        if 0 < analysis.numeric_fields.length then analysis.numeric_fields.headD ""
        else fields.headD ""
      let y_num :=
        if 1 < analysis.numeric_fields.length then analysis.numeric_fields.getD 1 ""
        else if 1 < fields.length then fields.getD 1 ""
        else fields.headD ""
      .ok (.jobj (pyMerge base_spec
        [("mark", .jobj [("type", .jstr "point"), ("tooltip", .jbool true)]),
         ("encoding", .jobj
           [("x", .jobj [("field", .jstr x_num), ("type", .jstr "quantitative")]),
            ("y", .jobj [("field", .jstr y_num), ("type", .jstr "quantitative")])])]))
    else if chart_type = "pie" then
      let cat_field :=
        if !analysis.category_fields.isEmpty then analysis.category_fields.headD ""
        else fields.headD ""
      let val_field :=
        if !analysis.numeric_fields.isEmpty then analysis.numeric_fields.headD ""
        else if 1 < fields.length then fields.getD 1 ""
        else fields.headD ""
      .ok (.jobj (pyMerge base_spec
        [("mark", .jobj [("type", .jstr "arc"), ("tooltip", .jbool true)]),
         ("encoding", .jobj
           [("theta", .jobj [("field", .jstr val_field),
                             ("type", .jstr "quantitative")]),
            ("color", .jobj [("field", .jstr cat_field),
                             ("type", .jstr "nominal")])])]))
    else
      let optJ : Option String → JVal := fun o =>
        match o with | some s => .jstr s | none => .jnull
      .ok (.jobj (pyMerge base_spec
        [("mark", .jobj [("type", .jstr "bar"), ("tooltip", .jbool true)]),
         ("encoding", .jobj
           [("x", .jobj [("field", optJ x_field), ("type", .jstr "nominal")]),
            ("y", .jobj [("field", optJ y_field),
                         ("type", .jstr "quantitative")])])]))

/-- `process_structured_data(data_sample, processing_instruction)`. -/
def process_structured_data (data_sample : String) (parsed : Option JVal)
    (processing_instruction : String) : Except String JVal :=
  if stripEmpty data_sample then
    .ok (.jobj [("error", .jstr "data_sample cannot be empty"),
                ("status", .jstr "failed")])
  else
    let data := parse_input_data data_sample parsed
    if data.isEmpty then
      .ok (.jobj [("error", .jstr "Could not parse data_sample"),
                  ("status", .jstr "failed"),
                  ("hint", .jstr "Expected JSON array of objects or SQL result format")])
    else do
      let analysis ← analyze_data_structure data
      let instruction_lower := pyLower processing_instruction
      if startsL ("chart:").data instruction_lower.data then
        let chart_type := instruction_lower.drop 6
        let spec ← generate_vega_lite_spec data analysis chart_type
        .ok (.jobj
          [("status", .jstr "success"),
           ("type", .jstr "visualization"),
           ("format", .jstr "vega-lite"),
           ("chart_type", .jstr chart_type),
           ("data_analysis", analysis.toJVal),
           ("output", spec)])
      else if instruction_lower = "summarize" then
        let stats ← generate_summary_stats data analysis
        .ok (.jobj
          [("status", .jstr "success"),
           ("type", .jstr "summary"),
           ("data_preview", .jarr (data.take 5)),
           ("analysis", analysis.toJVal),
           ("statistics", stats)])
      else if instruction_lower = "format" then
        .ok (.jobj
          [("status", .jstr "success"),
           ("type", .jstr "formatted_data"),
           ("data", .jarr data),
           ("analysis", analysis.toJVal),
           ("row_count", .jnum (Q.ofNat data.length)),
           ("columns", .jarr (analysis.fields.map JVal.jstr))])
      else
        if pyTruthyS analysis.recommended_viz &&
            (instruction_lower == "auto" || instruction_lower == "visualize") then
          let spec ← generate_vega_lite_spec data analysis
            (analysis.recommended_viz.getD "")
          let stats ← generate_summary_stats data analysis
          .ok (.jobj
            [("status", .jstr "success"),
             ("type", .jstr "auto_visualization"),
             ("format", .jstr "vega-lite"),
             ("chart_type",
               match analysis.recommended_viz with
               | some s => .jstr s
               | none => .jnull),
             ("data_analysis", analysis.toJVal),
             ("statistics", stats),
             ("output", spec)])
        else
          let stats ← generate_summary_stats data analysis
          .ok (.jobj
            [("status", .jstr "success"),
             ("type", .jstr "summary"),
             ("data_preview", .jarr (data.take 10)),
             ("analysis", analysis.toJVal),
             ("statistics", stats),
             ("hint", .jstr "No clear visualization pattern detected. Use processing_instruction='chart:bar' or 'chart:line' to force a specific chart type.")])

end PSD

/-! Statement-level definitions used by the claim theorems. -/

/-- The condition of the first temporal branch of `detect_field_types`
(lines 112-115 of the generator): the lower-cased name contains a temporal
keyword and the first-record sample is numeric or a string. -/
def temporalHit (data_values : List JVal) (field : String) : Bool :=
  let field_lower := pyLower field
  let sample := GVS.firstSample data_values field
  let is_numeric := match sample with | some v => isNumStrict v | none => false
  let is_string := match sample with | some (.jstr _) => true | _ => false
  anyKeyword field_lower GVS.time_keywords && (is_numeric || is_string)

/-- The dataset of the claimed dual-axis end-to-end example: fields
`region`, `sales_usd`, `volume`, with the `sales_usd` range (400000)
more than 100 times the `volume` range (30). -/
def c3data : List JVal :=
  [.jobj [("region", .jstr "North"), ("sales_usd", .jnum 100000),
          ("volume", .jnum 50)],
   .jobj [("region", .jstr "South"), ("sales_usd", .jnum 500000),
          ("volume", .jnum 80)]]

def c3desc : String := "compare vodka sales USD vs volume by region"

/-- Two temporal-keyword fields with numeric samples, plus a measure. -/
def c4data : List JVal :=
  [.jobj [("year", .jnum 2020), ("month", .jnum 1), ("sales", .jnum 5)]]

/-- Measures with ranges 100 and 50000 (ratio 500).  The trailing string
row is skipped by the comprehension of `have_different_scales` (Python's
`field in row` is a substring test on a string row, false here), so the
ranges are still computed. -/
def dvA5 : List JVal :=
  [.jobj [("a", .jnum 0), ("b", .jnum 0)],
   .jobj [("a", .jnum 100), ("b", .jnum 50000)],
   .jstr "zz"]

/-- The spelled-out JSON text of `c3data`. -/
def c3ds : String :=
  "[\x7b\"region\": \"North\", \"sales_usd\": 100000, \"volume\": 50\x7d, \x7b\"region\": \"South\", \"sales_usd\": 500000, \"volume\": 80\x7d]"

/-- A strictly positive fraction. -/
def Q.pos (a : Q) : Prop := 0 < a.num ∧ 0 < a.den

instance (a : Q) : Decidable (Q.pos a) :=
  inferInstanceAs (Decidable (0 < a.num ∧ 0 < a.den))

/-- Measures with ranges 100 and 150 (ratio 1.5). -/
def dvB5 : List JVal :=
  [.jobj [("a", .jnum 0), ("b", .jnum 0)],
   .jobj [("a", .jnum 100), ("b", .jnum 150)]]

/-! Helper lemmas. -/

theorem normalize_fallback3 (ds : String) (p : Option JVal)
    (h : stripEmpty ds = true ∨ p = none ∨ p = some (.jarr [])) :
    GVS.normalizeData ds p = (GVS.fallback3, ["category", "value"]) := by
  rcases h with h | h | h
  · unfold GVS.normalizeData
    rw [h]
    rfl
  · subst h
    unfold GVS.normalizeData
    cases hds : stripEmpty ds <;> rfl
  · subst h
    unfold GVS.normalizeData
    cases hds : stripEmpty ds <;> rfl

/-- Claim C6: for a non-empty description and a `data_sample` that is
empty/whitespace, invalid JSON, or the JSON empty array, the generator
embeds exactly the fixed three-row fallback dataset in its output. -/
theorem c6_fallback_dataset (desc ds : String) (p : Option JVal)
    (hd : stripEmpty desc = false)
    (h : stripEmpty ds = true ∨ p = none ∨ p = some (.jarr [])) :
    topField (GVS.generate_vega_lite_spec desc ds p) "data"
      = some (.jobj [("values", .jarr GVS.fallback3)]) := by
  have hn := normalize_fallback3 ds p h
  unfold GVS.generate_vega_lite_spec
  rw [hd, hn]
  simp only [Bool.false_eq_true, if_false]
  dsimp only
  split
  · rfl
  split
  · rfl
  split
  · rfl
  split
  · rfl
  · rfl

/-- Claim C6 witness at `desc = "bar"`, `data_sample = ""`. -/
theorem c6_witness :
    stripEmpty "bar" = false ∧
    topField (GVS.generate_vega_lite_spec "bar" "" none) "data"
      = some (.jobj [("values", .jarr GVS.fallback3)]) :=
  ⟨rfl, c6_fallback_dataset "bar" "" none rfl (Or.inl rfl)⟩

theorem normalize_single (ds : String) (x : JVal) (xs : List JVal)
    (hds : stripEmpty ds = false)
    (hx : x.isObj = false ∨ x.objKeys.length < 2) :
    GVS.normalizeData ds (some (.jarr (x :: xs)))
      = (GVS.fallback1, ["category", "value"]) := by
  have hcond : (x.falsy || (!x.isObj || decide (x.objKeys.length < 2))) = true := by
    rcases hx with h | h
    · rw [h]
      simp
    · rw [decide_eq_true h]
      simp
  unfold GVS.normalizeData
  rw [hds]
  simp [hcond]
  intro h1 h2 h3
  rw [h1, h2] at hcond
  simp at hcond
  omega

/-- Claim C9: a non-empty JSON array whose first element is not a dict with
at least two keys is discarded wholesale; the generator substitutes the
single record `{category: "A", value: 28}` with fields `category, value`. -/
theorem c9_single_record_replacement (desc ds : String) (x : JVal)
    (xs : List JVal)
    (hd : stripEmpty desc = false) (hds : stripEmpty ds = false)
    (hx : x.isObj = false ∨ x.objKeys.length < 2) :
    topField (GVS.generate_vega_lite_spec desc ds (some (.jarr (x :: xs)))) "data"
      = some (.jobj [("values", .jarr GVS.fallback1)]) := by
  have hn := normalize_single ds x xs hds hx
  unfold GVS.generate_vega_lite_spec
  rw [hd, hn]
  simp only [Bool.false_eq_true, if_false]
  dsimp only
  split
  · rfl
  split
  · rfl
  split
  · rfl
  split
  · rfl
  · rfl

/-- Claim C9 witness: a valid one-element array of numbers is replaced. -/
theorem c9_witness :
    topField (GVS.generate_vega_lite_spec "bar" "[1]" (some (.jarr [.jnum 1]))) "data"
      = some (.jobj [("values", .jarr GVS.fallback1)]) :=
  c9_single_record_replacement "bar" "[1]" (.jnum 1) [] rfl rfl (Or.inl rfl)

/-- Claim C3: the module docstring promises a dual-axis chart for
"compare vodka sales USD vs volume by region", and the dataset is genuinely
scale-divergent (the detector itself flags it), yet the description matches
no chart-family keyword, so the code emits the default single-measure bar
spec: no `layer` key, a plain bar mark, the original data embedded. -/
theorem c3_code_eval :
    (GVS.have_different_scales ["sales_usd", "volume"] c3data).1 = true ∧
    topField (GVS.generate_vega_lite_spec c3desc c3ds (some (.jarr c3data))) "layer"
      = none ∧
    topField (GVS.generate_vega_lite_spec c3desc c3ds (some (.jarr c3data))) "mark"
      = some (.jobj [("type", .jstr "bar"), ("tooltip", .jbool true)]) ∧
    topField (GVS.generate_vega_lite_spec c3desc c3ds (some (.jarr c3data))) "resolve"
      = none :=
  ⟨by decide, rfl, rfl, rfl⟩

theorem detectStep_time_set (dv : List JVal) (st : GVS.DetectSt) (f : String)
    (hf : temporalHit dv f = true) :
    (GVS.detectStep dv st f).time_field = some f := by
  unfold temporalHit at hf
  unfold GVS.detectStep
  dsimp only at hf ⊢
  rw [Bool.and_eq_true] at hf
  rw [hf.1, hf.2]
  rfl

theorem detectStep_time_keep (dv : List JVal) (st : GVS.DetectSt)
    (g t : String) (ht : st.time_field = some t)
    (hg : temporalHit dv g = false) :
    (GVS.detectStep dv st g).time_field = some t := by
  unfold temporalHit at hg
  unfold GVS.detectStep
  dsimp only at hg ⊢
  (repeat' split) <;> first | rfl | exact ht | simp_all

theorem foldl_time_keep (dv : List JVal) (l : List String) (st : GVS.DetectSt)
    (t : String) (ht : st.time_field = some t)
    (hl : ∀ g ∈ l, temporalHit dv g = false) :
    (l.foldl (GVS.detectStep dv) st).time_field = some t := by
  induction l generalizing st with
  | nil => simpa using ht
  | cons g gs ih =>
      rw [List.foldl_cons]
      exact ih _ (detectStep_time_keep dv st g t ht (hl g (by simp)))
        (fun x hx => hl x (by simp [hx]))

/-- Claim C4, amended: among the fields whose lower-cased name contains a
temporal keyword and whose first-record sample is numeric or a string, the
LAST one in field order ends up as the temporal field — each later hit
overwrites the earlier assignment (the claim said the first wins). -/
theorem c4_amended (dv : List JVal) (l1 l2 : List String) (f : String)
    (hf : temporalHit dv f = true)
    (hl2 : ∀ g ∈ l2, temporalHit dv g = false) :
    (GVS.detect_field_types (l1 ++ f :: l2) dv).1 = some f := by
  unfold GVS.detect_field_types
  dsimp only
  rw [List.foldl_append, List.foldl_cons]
  exact foldl_time_keep dv l2 _ f (detectStep_time_set dv _ f hf) hl2

/-- Claim C4 counterexample: with fields `year, month, sales` (both `year`
and `month` temporal-keyword fields with numeric samples), the classifier
assigns Temporal to `month`, not to the first such field `year`. -/
theorem c4_counterexample :
    (GVS.detect_field_types ["year", "month", "sales"] c4data).1 = some "month" ∧
    (GVS.detect_field_types ["year", "month", "sales"] c4data).1 ≠ some "year" :=
  ⟨rfl, by decide⟩

/-- Claim C4 witness: the amended theorem at the concrete dataset. -/
theorem c4_witness :
    (GVS.detect_field_types ["year", "month", "sales"] c4data).1 = some "month" :=
  c4_amended c4data ["year"] ["sales"] "month" (by decide) (by decide)

/-- Claim C8: for every dataset reaching classification in the generator
(fields and data as produced by its normalizer), the measure list returned
by `detect_field_types` is non-empty. -/
theorem c8_measures_nonempty (ds : String) (p : Option JVal) :
    (GVS.detect_field_types (GVS.normalizeData ds p).2
      (GVS.normalizeData ds p).1).2.2 ≠ [] := by
  unfold GVS.detect_field_types
  dsimp only
  split
  · split <;> simp
  · assumption

/-! The scale-divergence development (claim C5). -/

theorem Q.zero_den : (0 : Q).den = 1 := rfl

theorem Q.one_den : (1 : Q).den = 1 := rfl

theorem Q.hundred_den : (100 : Q).den = 1 := rfl

theorem Q.toRat_zero : (0 : Q).toRat = 0 := by
  show ((0 : ℤ) : ℚ) / ((1 : ℕ) : ℚ) = 0
  norm_num

theorem Q.toRat_one : (1 : Q).toRat = 1 := by
  show ((1 : ℤ) : ℚ) / ((1 : ℕ) : ℚ) = 1
  norm_num

theorem Q.toRat_hundred : (100 : Q).toRat = 100 := by
  show ((100 : ℤ) : ℚ) / ((1 : ℕ) : ℚ) = 100
  norm_num

theorem allPairs_mem {α : Type} (l : List α) (p : α × α)
    (hp : p ∈ GVS.allPairs l) : p.1 ∈ l ∧ p.2 ∈ l := by
  induction l with
  | nil => simp [GVS.allPairs] at hp
  | cons x xs ih =>
      simp only [GVS.allPairs, List.mem_append, List.mem_map] at hp
      rcases hp with ⟨y, hy, hxy⟩ | hp
      · cases hxy
        simp [hy]
      · have h := ih hp
        simp [h.1, h.2]

theorem Q.lt_iff (a b : Q) (ha : 0 < a.den) (hb : 0 < b.den) :
    (Q.lt a b = true) ↔ a.toRat < b.toRat := by
  have ha' : (0 : ℚ) < (a.den : ℚ) := by exact_mod_cast ha
  have hb' : (0 : ℚ) < (b.den : ℚ) := by exact_mod_cast hb
  simp only [Q.lt, decide_eq_true_eq, Q.toRat]
  rw [div_lt_div_iff ha' hb']
  constructor <;> intro h <;> exact_mod_cast h

theorem Q.toRat_pos (a : Q) (h : Q.pos a) : 0 < a.toRat := by
  have h1 : (0 : ℚ) < (a.num : ℚ) := by exact_mod_cast h.1
  have h2 : (0 : ℚ) < (a.den : ℚ) := by exact_mod_cast h.2
  exact div_pos h1 h2

theorem Q.div_den (a b : Q) : (Q.div a b).den = a.den * b.num.natAbs := by
  unfold Q.div
  split <;> rfl

theorem Q.div_toRat (a b : Q) (ha : 0 < a.den) (hb2 : 0 < b.den)
    (hbn : 0 < b.num) :
    (Q.div a b).toRat = a.toRat / b.toRat := by
  unfold Q.div Q.toRat
  rw [if_pos hbn.le]
  dsimp only
  have hna : ((b.num.natAbs : ℕ) : ℚ) = (b.num : ℚ) := by
    rw [Int.cast_natAbs, abs_of_nonneg hbn.le]
  push_cast
  rw [hna]
  have h1 : (a.den : ℚ) ≠ 0 := by positivity
  have h2 : (b.den : ℚ) ≠ 0 := by positivity
  have h3 : (b.num : ℚ) ≠ 0 := by
    have hq : (0 : ℚ) < (b.num : ℚ) := by exact_mod_cast hbn
    exact hq.ne.symm
  field_simp

theorem Q.fmax_toRat (a b : Q) (ha : 0 < a.den) (hb : 0 < b.den) :
    (Q.fmax a b).toRat = max a.toRat b.toRat ∧ 0 < (Q.fmax a b).den := by
  unfold Q.fmax
  by_cases h : Q.lt a b = true
  · rw [if_pos h]
    have hlt := (Q.lt_iff a b ha hb).mp h
    exact ⟨(max_eq_right hlt.le).symm, hb⟩
  · rw [if_neg h]
    have hle : b.toRat ≤ a.toRat := by
      by_contra hc
      exact h ((Q.lt_iff a b ha hb).mpr (lt_of_not_le hc))
    exact ⟨(max_eq_left hle).symm, ha⟩

theorem max_div_min (x y : ℚ) (hx : 0 < x) (hy : 0 < y) :
    max (x / y) (y / x) = max x y / min x y := by
  rcases le_total x y with h | h
  · rw [max_eq_right h, min_eq_left h]
    have hxy : x / y ≤ y / x := by
      rw [div_le_div_iff hy hx]
      nlinarith
    rw [max_eq_right hxy]
  · rw [max_eq_left h, min_eq_right h]
    have hxy : y / x ≤ x / y := by
      rw [div_le_div_iff hx hy]
      nlinarith
    rw [max_eq_left hxy]

theorem pairStep_toRat (acc : Q) (p : GVS.RangeInfo × GVS.RangeInfo)
    (hacc : 0 < acc.den)
    (h1 : Q.pos p.1.rangeV) (h2 : Q.pos p.2.rangeV) :
    (GVS.pairStep acc p).toRat
      = max acc.toRat (max p.1.rangeV.toRat p.2.rangeV.toRat /
          min p.1.rangeV.toRat p.2.rangeV.toRat) ∧
    0 < (GVS.pairStep acc p).den := by
  have hR1 := Q.toRat_pos _ h1
  have hR2 := Q.toRat_pos _ h2
  unfold GVS.pairStep
  rw [if_pos ((Q.lt_iff 0 p.2.rangeV (by rw [Q.zero_den]; norm_num) h2.2).mpr
    (by rw [Q.toRat_zero]; exact hR2))]
  dsimp only
  have hrval : (Q.div p.1.rangeV p.2.rangeV).toRat
      = p.1.rangeV.toRat / p.2.rangeV.toRat := Q.div_toRat _ _ h1.2 h2.2 h2.1
  have hrden : 0 < (Q.div p.1.rangeV p.2.rangeV).den := by
    rw [Q.div_den]
    exact Nat.mul_pos h1.2 (Int.natAbs_pos.mpr h2.1.ne.symm)
  have hrpos : 0 < (Q.div p.1.rangeV p.2.rangeV).toRat := by
    rw [hrval]
    exact div_pos hR1 hR2
  rw [if_pos ((Q.lt_iff 0 _ (by rw [Q.zero_den]; norm_num) hrden).mpr
    (by rw [Q.toRat_zero]; exact hrpos))]
  have hrnum : 0 < (Q.div p.1.rangeV p.2.rangeV).num := by
    unfold Q.div
    rw [if_pos h2.1.le]
    exact mul_pos h1.1 (by exact_mod_cast h2.2)
  have hinv : (Q.div 1 (Q.div p.1.rangeV p.2.rangeV)).toRat
      = p.2.rangeV.toRat / p.1.rangeV.toRat := by
    rw [Q.div_toRat _ _ (by rw [Q.one_den]; norm_num) hrden hrnum, hrval,
      Q.toRat_one, one_div, inv_div]
  have hinvden : 0 < (Q.div 1 (Q.div p.1.rangeV p.2.rangeV)).den := by
    rw [Q.div_den, Q.one_den]
    exact Nat.mul_pos (by norm_num) (Int.natAbs_pos.mpr hrnum.ne.symm)
  obtain ⟨hv1, hd1⟩ := Q.fmax_toRat acc (Q.div p.1.rangeV p.2.rangeV) hacc hrden
  obtain ⟨hv2, hd2⟩ := Q.fmax_toRat _ _ hd1 hinvden
  refine ⟨?_, hd2⟩
  rw [hv2, hv1, hrval, hinv, max_assoc, max_div_min _ _ hR1 hR2]

theorem foldl_pairStep_iff (ps : List (GVS.RangeInfo × GVS.RangeInfo)) (acc : Q)
    (hacc : 0 < acc.den)
    (hpos : ∀ p ∈ ps, Q.pos p.1.rangeV ∧ Q.pos p.2.rangeV) :
    ((Q.lt 100 (ps.foldl GVS.pairStep acc) = true) ↔
      (100 < acc.toRat ∨ ∃ p ∈ ps,
        100 < max p.1.rangeV.toRat p.2.rangeV.toRat /
          min p.1.rangeV.toRat p.2.rangeV.toRat)) ∧
    0 < (ps.foldl GVS.pairStep acc).den := by
  induction ps generalizing acc with
  | nil =>
      refine ⟨?_, hacc⟩
      rw [List.foldl_nil, Q.lt_iff _ _ (by rw [Q.hundred_den]; norm_num) hacc,
        Q.toRat_hundred]
      simp
  | cons p rest ih =>
      rw [List.foldl_cons]
      have hp := hpos p (by simp)
      obtain ⟨hval, hden⟩ := pairStep_toRat acc p hacc hp.1 hp.2
      obtain ⟨ih1, ih2⟩ := ih (GVS.pairStep acc p) hden
        (fun q hq => hpos q (by simp [hq]))
      refine ⟨?_, ih2⟩
      rw [ih1, hval, lt_max_iff]
      simp only [List.mem_cons]
      constructor
      · rintro ((h | h) | ⟨q, hq, hgt⟩)
        · exact Or.inl h
        · exact Or.inr ⟨p, Or.inl rfl, h⟩
        · exact Or.inr ⟨q, Or.inr hq, hgt⟩
      · rintro (h | ⟨q, (rfl | hq), hgt⟩)
        · exact Or.inl (Or.inl h)
        · exact Or.inl (Or.inr hgt)
        · exact Or.inr ⟨q, hq, hgt⟩

/-- Claim C5: with at least two measures whose ranges were computed and all
computed ranges strictly positive, the divergence flag of
`have_different_scales` is true exactly when some pair of measures has
larger-range / smaller-range ratio above 100. -/
theorem c5_divergence_iff (vfs : List String) (dv : List JVal)
    (h2 : ¬ vfs.length < 2)
    (hr2 : ¬ (GVS.computeRanges vfs dv).length < 2)
    (hpos : ∀ q ∈ GVS.computeRanges vfs dv, Q.pos q.2.rangeV) :
    (GVS.have_different_scales vfs dv).1 = true ↔
      ∃ p ∈ GVS.allPairs ((GVS.computeRanges vfs dv).map Prod.snd),
        100 < max p.1.rangeV.toRat p.2.rangeV.toRat /
          min p.1.rangeV.toRat p.2.rangeV.toRat := by
  unfold GVS.have_different_scales
  rw [if_neg h2]
  dsimp only
  rw [if_neg hr2]
  dsimp only
  have hps : ∀ p ∈ GVS.allPairs ((GVS.computeRanges vfs dv).map Prod.snd),
      Q.pos p.1.rangeV ∧ Q.pos p.2.rangeV := by
    intro p hp
    have hm := allPairs_mem _ p hp
    rcases List.mem_map.mp hm.1 with ⟨q1, hq1, he1⟩
    rcases List.mem_map.mp hm.2 with ⟨q2, hq2, he2⟩
    constructor
    · rw [← he1]
      exact hpos q1 hq1
    · rw [← he2]
      exact hpos q2 hq2
  have hfold := foldl_pairStep_iff
    (GVS.allPairs ((GVS.computeRanges vfs dv).map Prod.snd)) 1
    (by rw [Q.one_den]; norm_num) hps
  rw [hfold.1, Q.toRat_one]
  have h100 : ¬ ((100 : ℚ) < 1) := by norm_num
  simp [h100]

/-- Claim C5 witness: ranges 100 and 50000 (ratio 500) flag divergence;
ranges 100 and 150 (ratio 1.5) do not. -/
theorem c5_witness :
    (GVS.have_different_scales ["a", "b"] dvA5).1 = true ∧
    (GVS.have_different_scales ["a", "b"] dvB5).1 = false := by
  constructor
  · apply (c5_divergence_iff ["a", "b"] dvA5 (by decide) (by decide) (by decide)).mpr
    refine ⟨(⟨⟨0, 1⟩, ⟨100, 1⟩, ⟨100, 1⟩⟩, ⟨⟨0, 1⟩, ⟨50000, 1⟩, ⟨50000, 1⟩⟩),
      by decide, ?_⟩
    norm_num [Q.toRat]
  · have h := c5_divergence_iff ["a", "b"] dvB5 (by decide) (by decide) (by decide)
    cases hb : (GVS.have_different_scales ["a", "b"] dvB5).1
    · rfl
    · exfalso
      obtain ⟨p, hp, hgt⟩ := h.mp hb
      have hlist : GVS.allPairs ((GVS.computeRanges ["a", "b"] dvB5).map Prod.snd)
          = [(⟨⟨0, 1⟩, ⟨100, 1⟩, ⟨100, 1⟩⟩, ⟨⟨0, 1⟩, ⟨150, 1⟩, ⟨150, 1⟩⟩)] := by
        decide
      rw [hlist] at hp
      simp only [List.mem_singleton] at hp
      subst hp
      norm_num [Q.toRat] at hgt

/-! Inversion and totality machinery for the entry points (claims C1, C2, C10). -/

theorem ok_bind {α β : Type} (a : α) (f : α → Except String β) :
    ((Except.ok a : Except String α) >>= f) = f a := rfl

theorem bindE_ok {α β : Type} {x : Except String α} {f : α → Except String β}
    {v : β} (h : (x >>= f) = .ok v) : ∃ w, x = .ok w ∧ f w = .ok v := by
  cases x with
  | error e => simp [Bind.bind, Except.bind] at h
  | ok w => exact ⟨w, rfl, by simpa [Bind.bind, Except.bind] using h⟩

theorem mapME_ok {α β : Type} (l : List α) (f : α → Except String β)
    (h : ∀ a ∈ l, ∃ b, f a = .ok b) : ∃ bs, mapME l f = .ok bs := by
  induction l with
  | nil => exact ⟨[], rfl⟩
  | cons a as ih =>
      obtain ⟨b, hb⟩ := h a (by simp)
      obtain ⟨bs, hbs⟩ := ih (fun x hx => h x (by simp [hx]))
      refine ⟨b :: bs, ?_⟩
      unfold mapME
      rw [hb, ok_bind, hbs, ok_bind]

theorem foldME_ok {α β : Type} (l : List α) (b : β)
    (f : β → α → Except String β)
    (h : ∀ x a, ∃ y, f x a = .ok y) : ∃ r, foldME l b f = .ok r := by
  induction l generalizing b with
  | nil => exact ⟨b, rfl⟩
  | cons a as ih =>
      obtain ⟨y, hy⟩ := h b a
      obtain ⟨r, hr⟩ := ih y
      refine ⟨r, ?_⟩
      unfold foldME
      rw [hy, ok_bind, hr]

theorem analyze_obj (kvs : List (String × JVal)) (rest : List JVal) :
    ∃ a, PSD.analyze_data_structure (.jobj kvs :: rest) = .ok a ∧
      a.fields = kvs.map Prod.fst :=
  ⟨_, rfl, rfl⟩

theorem statNumericValues_ok (data : List JVal) (field : String)
    (h : rowsAllObj data = true) :
    ∃ vs, PSD.statNumericValues data field = .ok vs := by
  unfold PSD.statNumericValues
  have hm : ∀ r ∈ data, ∃ o, PSD.statNumRow field r = .ok o := by
    intro r hr
    have hobj := (List.all_eq_true.mp h) r hr
    cases r <;> simp_all [JVal.isObj, PSD.statNumRow]
  obtain ⟨bs, hbs⟩ := mapME_ok data _ hm
  rw [hbs, ok_bind]
  exact ⟨_, rfl⟩

theorem statStrValues_ok (data : List JVal) (field : String)
    (h : rowsAllObj data = true) :
    ∃ vs, PSD.statStrValues data field = .ok vs := by
  unfold PSD.statStrValues
  have hm : ∀ r ∈ data, ∃ o, PSD.statStrRow field r = .ok o := by
    intro r hr
    have hobj := (List.all_eq_true.mp h) r hr
    cases r <;> simp_all [JVal.isObj, PSD.statStrRow]
  obtain ⟨bs, hbs⟩ := mapME_ok data _ hm
  rw [hbs, ok_bind]
  exact ⟨_, rfl⟩

theorem bind_exists {α β : Type} {x : Except String α}
    {g : α → Except String β}
    (hx : ∃ w, x = .ok w) (hg : ∀ w, ∃ z, g w = .ok z) :
    ∃ s, (x >>= g) = .ok s := by
  obtain ⟨w, hw⟩ := hx
  obtain ⟨z, hz⟩ := hg w
  exact ⟨z, by rw [hw, ok_bind, hz]⟩

theorem stats_ok (data : List JVal) (a : PSD.Analysis)
    (h : rowsAllObj data = true) :
    ∃ s, PSD.generate_summary_stats data a = .ok s := by
  unfold PSD.generate_summary_stats
  apply bind_exists
  · apply foldME_ok
    intro acc field
    apply bind_exists (statNumericValues_ok data field h)
    intro vs
    cases vs with
    | nil => exact ⟨acc, rfl⟩
    | cons v rest => exact ⟨_, rfl⟩
  · intro f1
    apply bind_exists
    · apply foldME_ok
      intro acc field
      apply bind_exists (statStrValues_ok data field h)
      intro vs
      exact ⟨_, rfl⟩
    · intro f2
      exact ⟨_, rfl⟩

/-- Claim C2 counterexample: a successful chart document of
`generate_vega_lite_spec` (here for the description "bar") is returned
without any top-level `status` key. -/
theorem c2_counterexample :
    exceptOk (GVS.generate_vega_lite_spec "bar" "" none) = true ∧
    topField (GVS.generate_vega_lite_spec "bar" "" none) "status" = none :=
  ⟨rfl, rfl⟩

theorem topField_bind {α : Type} (x : Except String α)
    (g : α → Except String JVal) (k : String)
    (h : ∀ w, topField (g w) k = none) :
    topField (x >>= g) k = none := by
  cases x with
  | error e => rfl
  | ok w => rw [ok_bind]; exact h w

/-- Claim C2, amended: every JSON document `process_structured_data`
returns carries a top-level `status` of "success" or "failed"; for
`generate_vega_lite_spec` only the empty-description error envelope does
(status "failed"), and for every non-empty description the result — chart
document or propagated exception — carries no top-level `status` key at
all. -/
theorem c2_amended_status (ds instr desc desc2 ds2 ds3 : String)
    (p p2 p3 : Option JVal)
    (h : exceptOk (PSD.process_structured_data ds p instr) = true)
    (hdesc : stripEmpty desc = true)
    (hdesc2 : stripEmpty desc2 = false) :
    (topField (PSD.process_structured_data ds p instr) "status"
        = some (.jstr "success") ∨
     topField (PSD.process_structured_data ds p instr) "status"
        = some (.jstr "failed")) ∧
    topField (GVS.generate_vega_lite_spec desc ds2 p2) "status"
      = some (.jstr "failed") ∧
    topField (GVS.generate_vega_lite_spec desc2 ds3 p3) "status" = none := by
  refine ⟨?_, ?_, ?_⟩
  · obtain ⟨v, hv⟩ : ∃ v, PSD.process_structured_data ds p instr = .ok v := by
      cases hc : PSD.process_structured_data ds p instr with
      | error e => rw [hc] at h; exact absurd h (by simp [exceptOk])
      | ok v => exact ⟨v, rfl⟩
    rw [hv]
    unfold PSD.process_structured_data at hv
    split at hv
    · injection hv with h2
      subst h2
      right
      rfl
    · dsimp only at hv
      split at hv
      · injection hv with h2
        subst h2
        right
        rfl
      · obtain ⟨a, ha, hv2⟩ := bindE_ok hv
        split at hv2
        · obtain ⟨s, hs, hv3⟩ := bindE_ok hv2
          injection hv3 with h3
          subst h3
          left
          rfl
        · split at hv2
          · obtain ⟨s, hs, hv3⟩ := bindE_ok hv2
            injection hv3 with h3
            subst h3
            left
            rfl
          · split at hv2
            · injection hv2 with h2
              subst h2
              left
              rfl
            · split at hv2
              · obtain ⟨s, hs, hv3⟩ := bindE_ok hv2
                obtain ⟨t, ht, hv4⟩ := bindE_ok hv3
                injection hv4 with h4
                subst h4
                left
                rfl
              · obtain ⟨s, hs, hv3⟩ := bindE_ok hv2
                injection hv3 with h3
                subst h3
                left
                rfl
  · unfold GVS.generate_vega_lite_spec
    rw [hdesc]
    rfl
  · unfold GVS.generate_vega_lite_spec
    rw [hdesc2, if_neg (by decide : ¬(false = true))]
    generalize GVS.normalizeData ds3 p3 = nf
    obtain ⟨dv, fields⟩ := nf
    dsimp only
    generalize GVS.detect_field_types fields dv = det
    obtain ⟨tf, cf, vfs⟩ := det
    dsimp only
    (repeat' split) <;>
      first
        | rfl
        | exact topField_bind _ _ _ (fun w => rfl)

/-- Claim C2 witness: a concrete `format` run, the empty-description
envelope, and a non-empty description whose chart document has no status
key. -/
theorem c2_witness :
    (topField (PSD.process_structured_data "[\x7b\"a\": 1, \"b\": 2\x7d]"
        (some (.jarr [.jobj [("a", .jnum 1), ("b", .jnum 2)]])) "format") "status"
        = some (.jstr "success") ∨
     topField (PSD.process_structured_data "[\x7b\"a\": 1, \"b\": 2\x7d]"
        (some (.jarr [.jobj [("a", .jnum 1), ("b", .jnum 2)]])) "format") "status"
        = some (.jstr "failed")) ∧
    topField (GVS.generate_vega_lite_spec "" "" none) "status"
      = some (.jstr "failed") ∧
    topField (GVS.generate_vega_lite_spec "line" "z" none) "status" = none :=
  c2_amended_status "[\x7b\"a\": 1, \"b\": 2\x7d]" "format" "" "line" "" "z"
    (some (.jarr [.jobj [("a", .jnum 1), ("b", .jnum 2)]])) none none rfl rfl rfl

/-- Claim C10 counterexample: a parseable dataset (its second record is the
number 5) with an unrecognized instruction makes `process_structured_data`
raise a `TypeError` inside `generate_summary_stats` instead of returning
the summary document. -/
theorem c10_counterexample :
    exceptOk (PSD.process_structured_data "[\x7b\"a\": 1\x7d, 5]"
      (some (.jarr [.jobj [("a", .jnum 1)], .jnum 5])) "other") = false :=
  rfl

/-- Claim C10, amended: for every dataset whose parsed records are all
objects and every instruction whose lower-cased form is none of
"summarize", "format", "chart:*", "auto", "visualize", the result is the
summary-type success document and never a chart (no `output` key). -/
theorem c10_amended_summary (ds instr : String) (p : Option JVal)
    (hds : stripEmpty ds = false)
    (hne : PSD.parse_input_data ds p ≠ [])
    (hobj : rowsAllObj (PSD.parse_input_data ds p) = true)
    (h1 : pyLower instr ≠ "summarize") (h2 : pyLower instr ≠ "format")
    (h3 : startsL ("chart:").data (pyLower instr).data = false)
    (h4 : pyLower instr ≠ "auto") (h5 : pyLower instr ≠ "visualize") :
    topField (PSD.process_structured_data ds p instr) "type"
      = some (.jstr "summary") ∧
    topField (PSD.process_structured_data ds p instr) "status"
      = some (.jstr "success") ∧
    topField (PSD.process_structured_data ds p instr) "output" = none := by
  obtain ⟨first, rest, hdata⟩ : ∃ f r, PSD.parse_input_data ds p = f :: r := by
    cases hd : PSD.parse_input_data ds p with
    | nil => exact absurd hd hne
    | cons f r => exact ⟨f, r, rfl⟩
  rw [hdata] at hobj
  obtain ⟨kvs, hkvs⟩ : ∃ kvs, first = JVal.jobj kvs := by
    have hh := (List.all_eq_true.mp hobj) first (by simp)
    cases first <;> simp_all [JVal.isObj]
  rw [hkvs] at hdata hobj
  have hdata2 : PSD.parse_input_data ds p = JVal.jobj kvs :: rest := hdata
  obtain ⟨a, ha, haf⟩ := analyze_obj kvs rest
  obtain ⟨s, hs⟩ := stats_ok (JVal.jobj kvs :: rest) a hobj
  have e4 : ((pyLower instr == "auto") : Bool) = false := beq_eq_false_iff_ne.mpr h4
  have e5 : ((pyLower instr == "visualize") : Bool) = false :=
    beq_eq_false_iff_ne.mpr h5
  unfold PSD.process_structured_data
  rw [hds]
  simp only [Bool.false_eq_true, if_false]
  rw [hdata2]
  simp only [List.isEmpty_cons, Bool.false_eq_true, if_false]
  rw [ha]
  simp only [ok_bind]
  rw [h3]
  simp only [Bool.false_eq_true, if_false]
  rw [if_neg h1, if_neg h2, e4, e5]
  simp only [Bool.or_self, Bool.and_false, Bool.false_eq_true, if_false]
  rw [hs]
  simp only [ok_bind]
  exact ⟨rfl, rfl, rfl⟩

/-- Claim C10 witness: an all-object dataset with instruction "other". -/
theorem c10_witness :
    topField (PSD.process_structured_data "[\x7b\"a\": 1\x7d]"
      (some (.jarr [.jobj [("a", .jnum 1)]])) "other") "type"
      = some (.jstr "summary") ∧
    topField (PSD.process_structured_data "[\x7b\"a\": 1\x7d]"
      (some (.jarr [.jobj [("a", .jnum 1)]])) "other") "status"
      = some (.jstr "success") ∧
    topField (PSD.process_structured_data "[\x7b\"a\": 1\x7d]"
      (some (.jarr [.jobj [("a", .jnum 1)]])) "other") "output" = none :=
  c10_amended_summary "[\x7b\"a\": 1\x7d]" "other"
    (some (.jarr [.jobj [("a", .jnum 1)]])) rfl
    (by intro h; exact absurd (congrArg List.length h) (by decide))
    rfl (by decide) (by decide) rfl (by decide) (by decide)

/-! Membership and totality lemmas for claim C1. -/

